import Mathlib

/-!
Verification of the rotating file logger in `logger/file.go` (package `logger`
of the sealer repository).

The Go code is shallowly embedded: the `fileLogger` struct becomes the
`FileLogger` structure, the filesystem touched by the logger becomes an
association list from paths to contents (`FS`), the `*os.File` handle becomes
the three-valued `Handle`, and every fallible OS call (open/chmod/stat/read/
rename/write) is decided by a boolean `Oracle` supplied to the operation, so
that every failure path of the source is reachable in the model.  Errors
returned by the Go functions become `Option GoErr`; messages printed to the
process-wide error sink (`common.StdErr`) become a `List SinkMsg` in the
results.  The read/write-mutex choreography of `LogWrite` collapses in this
sequential embedding: the double-checked trigger re-evaluation sees the same
state, so it is modelled as a single evaluation.
-/

namespace SealerLogger

/-- A calendar instant, as much of Go's `time.Time` as the logger inspects:
`Day()` and the `"2006-01-02"` formatting. -/
structure GoTime where
  year : Nat
  month : Nat
  day : Nat
deriving Repr, DecidableEq

/-- Byte length of a string, Go's `len(msg)` on a UTF-8 string. -/
def goLenAux : List Char → Nat
  | [] => 0
  | c :: cs => c.utf8Size + goLenAux cs

def goLen (s : String) : Nat := goLenAux s.toList

/-- `lines()` of the source counts `'\n'` bytes of the file contents (the
32 KiB-chunked read sums chunk counts, which equals the count over the whole
contents). -/
def lines (s : String) : Nat := s.toList.count '\n'

/-- Zero-padding used by `%03d`. -/
def pad3 (n : Nat) : String :=
  if n < 10 then "00" ++ toString n
  else if n < 100 then "0" ++ toString n
  else toString n

def pad2 (n : Nat) : String := if n < 10 then "0" ++ toString n else toString n

def pad4 (n : Nat) : String :=
  if n < 10 then "000" ++ toString n
  else if n < 100 then "00" ++ toString n
  else if n < 1000 then "0" ++ toString n
  else toString n

/-- Go's `t.Format("2006-01-02")`. -/
def fmtDate (t : GoTime) : String :=
  pad4 t.year ++ "-" ++ pad2 t.month ++ "-" ++ pad2 t.day

/-- The state of the logger's `*os.File` field: Go `nil`, a closed
descriptor, or an open descriptor on a path. -/
inductive Handle where
  | nilFile : Handle
  | closedFile : String → Handle
  | openFile : String → Handle
deriving Repr, DecidableEq

/-- `(*os.File).Close`: an open descriptor becomes closed; closing `nil` or
an already-closed descriptor only yields an ignored error. -/
def Handle.closeFd : Handle → Handle
  | Handle.openFile p => Handle.closedFile p
  | h => h

/-- The filesystem fragment the logger touches: existing paths and their
contents.  `os.Lstat` success is membership. -/
structure FS where
  files : List (String × String)
deriving Repr, DecidableEq

def FS.lookup (fs : FS) (p : String) : Option String :=
  (fs.files.find? (fun e => e.1 == p)).map (fun e => e.2)

def FS.pathExists (fs : FS) (p : String) : Bool := (fs.lookup p).isSome

def FS.set (fs : FS) (p c : String) : FS :=
  ⟨(p, c) :: fs.files.filter (fun e => e.1 != p)⟩

def FS.remove (fs : FS) (p : String) : FS :=
  ⟨fs.files.filter (fun e => e.1 != p)⟩

/-- `os.Rename`: move contents from `src` to `dst` (when `src` exists). -/
def FS.rename (fs : FS) (src dst : String) : FS :=
  match fs.lookup src with
  | some c => (fs.remove src).set dst c
  | none => fs

/-- An `O_APPEND` write. -/
def FS.appendTo (fs : FS) (p s : String) : FS :=
  fs.set p (((fs.lookup p).getD "") ++ s)

/-- Outcomes of each fallible OS call made during one logger operation. -/
structure Oracle where
  openOk : Bool
  chmodOpenOk : Bool
  statOk : Bool
  readOk : Bool
  renameOk : Bool
  chmodRotOk : Bool
  writeOk : Bool
deriving Repr, DecidableEq

/-- The errors the embedded functions can produce, one constructor per
`error` value constructed in the source. -/
inductive GoErr where
  | permParse : GoErr
  | openFail : GoErr
  | chmodFail : GoErr
  | getStat : GoErr
  | readFail : GoErr
  | rotateStart : GoErr → GoErr
  | noFreeLogNumber : String → GoErr
  | rotateChmod : GoErr
  | jsonUnmarshal : GoErr
  | missingFilename : GoErr
  | invalidFile : GoErr
  | fileClosed : GoErr
  | writeFail : GoErr
deriving Repr, DecidableEq

/-- Messages printed to the external error sink `common.StdErr`. -/
inductive SinkMsg where
  | renameErr : String → String → SinkMsg
  | createFreshErr : String → GoErr → SinkMsg
deriving Repr, DecidableEq

/-- The `fileLogger` struct (mutex omitted: the embedding is sequential). -/
structure FileLogger where
  fileWriter : Handle
  Filename : String
  Append : Bool
  MaxLines : Int
  MaxSize : Int
  Daily : Bool
  MaxDays : Int
  Level : String
  PermitMask : String
  LogLevel : Int
  maxSizeCurSize : Int
  maxLinesCurLines : Int
  dailyOpenDate : Nat
  dailyOpenTime : GoTime
  fileNameOnly : String
  suffix : String
deriving Repr, DecidableEq

/-- `needCreateFresh(size, day)` — the rotation trigger. -/
def needCreateFresh (f : FileLogger) (size : Int) (day : Nat) : Bool :=
  (decide (f.MaxLines > 0) && decide (f.maxLinesCurLines ≥ f.MaxLines)) ||
  (decide (f.MaxSize > 0) && decide (f.maxSizeCurSize + size ≥ f.MaxSize)) ||
  (f.Daily && decide (day ≠ f.dailyOpenDate))

/-- `strconv.ParseInt(mask, 8, 64)` on the permission mask: a non-empty
string of octal digits (signs and base prefixes, which never occur in a
permission mask, are not modelled). -/
def parseOctal (s : String) : Option Int :=
  if s.length ≠ 0 ∧ s.toList.all (fun c => decide ('0' ≤ c) && decide (c ≤ '7')) then
    some (s.toList.foldl (fun a c => a * 8 + (Int.ofNat (c.toNat - '0'.toNat))) 0)
  else none

/-- `createLogFile`: parse the octal permission mask, open (creating if
absent, `O_WRONLY|O_APPEND|O_CREATE`) the file at `Filename`, then `chmod` it.
Returns the possibly-changed filesystem, the descriptor Go would return (nil
on error), and the error. -/
def createLogFile (f : FileLogger) (fs : FS) (o : Oracle) :
    FS × Option Handle × Option GoErr :=
  match parseOctal f.PermitMask with
  | none => (fs, none, some GoErr.permParse)
  | some _ =>
    if o.openOk then
      let fs1 := if fs.pathExists f.Filename then fs else fs.set f.Filename ""
      if o.chmodOpenOk then (fs1, some (Handle.openFile f.Filename), none)
      else (fs1, none, some GoErr.chmodFail)
    else (fs, none, some GoErr.openFail)

/-- Result of an operation that mutates the logger and the filesystem and may
return an error. -/
structure StepRes where
  f : FileLogger
  fs : FS
  err : Option GoErr
deriving Repr, DecidableEq

/-- `newFile`: open the log file, close and replace the previous descriptor,
stat it to seed `maxSizeCurSize`, record the open time and day, and seed
`maxLinesCurLines` by a full line scan when the file already has content. -/
def newFile (now : GoTime) (f : FileLogger) (fs : FS) (o : Oracle) : StepRes :=
  match createLogFile f fs o with
  | (fs1, _, some e) => ⟨f, fs1, some e⟩
  | (fs1, fd, none) =>
    let f1 := { f with fileWriter := fd.getD Handle.nilFile }
    if o.statOk then
      let content := (fs1.lookup f.Filename).getD ""
      let size : Int := Int.ofNat (goLen content)
      let f2 := { f1 with maxSizeCurSize := size, dailyOpenTime := now,
                          dailyOpenDate := now.day, maxLinesCurLines := 0 }
      if size > 0 then
        if o.readOk then
          ⟨{ f2 with maxLinesCurLines := Int.ofNat (lines content) }, fs1, none⟩
        else ⟨f2, fs1, some GoErr.readFail⟩
      else ⟨f2, fs1, none⟩
    else ⟨f1, fs1, some GoErr.getStat⟩

/-- The `RestartLogger` closure inside `createFreshFile`: run `newFile`,
spawn `deleteOldLog` (recorded by the caller), wrap any error. -/
def restartLogger (now : GoTime) (f : FileLogger) (fs : FS) (o : Oracle) : StepRes :=
  let r := newFile now f fs o
  match r.err with
  | some e => ⟨r.f, r.fs, some (GoErr.rotateStart e)⟩
  | none => r

/-- The archival file name `<fileNameOnly>.<date>.<NNN><suffix>` built by
`fmt.Sprintf(".%s.%03d%s", date, num, suffix)`. -/
def archName (f : FileLogger) (dateStr : String) (num : Nat) : String :=
  f.fileNameOnly ++ "." ++ dateStr ++ "." ++ pad3 num ++ f.suffix

/-- The date stamp used for the archival name (lines 233–242 of the source):
the previous open time's date when the day-of-month changed, otherwise the
rotation instant's date. -/
def rotationDateStr (f : FileLogger) (logTime : GoTime) : String :=
  if f.dailyOpenDate ≠ logTime.day then fmtDate f.dailyOpenTime else fmtDate logTime

/-- The probe loop `for ; err == nil && num <= 999; num++`: starting at
`num`, with `fuel` probes remaining, return the first number whose archival
name is not on disk. -/
def searchFree (fs : FS) (f : FileLogger) (dateStr : String) : Nat → Nat → Option Nat
  | _, 0 => none
  | num, fuel + 1 =>
    if fs.pathExists (archName f dateStr num) then searchFree fs f dateStr (num + 1) fuel
    else some num

/-- The full probe: numbers 1..999 in order. -/
def findFreeNum (fs : FS) (f : FileLogger) (dateStr : String) : Option Nat :=
  searchFree fs f dateStr 1 999

/-- What one rotation (`createFreshFile`) produced: the new logger state and
filesystem, sink output, returned error, the rename that was performed (if
any), and whether a retention sweep was spawned. -/
structure RotRes where
  f : FileLogger
  fs : FS
  sink : List SinkMsg
  err : Option GoErr
  renamedTo : Option (String × String)
  sweep : Bool
deriving Repr, DecidableEq

/-- `createFreshFile(logTime)`: parse the rotation permission mask; if the
active file has vanished just restart; otherwise probe for a free archival
name, close the current descriptor, rename (reporting a failed rename to the
sink and restarting anyway), re-apply permissions, and restart the logger.
`now` is the `time.Now()` observed inside `newFile`. -/
def createFreshFile (logTime now : GoTime) (f : FileLogger) (fs : FS) (o : Oracle) : RotRes :=
  match parseOctal f.PermitMask with
  | none => ⟨f, fs, [], some GoErr.permParse, none, false⟩
  | some _ =>
    if fs.pathExists f.Filename then
      let d := rotationDateStr f logTime
      match findFreeNum fs f d with
      | none => ⟨f, fs, [], some (GoErr.noFreeLogNumber f.Filename), none, false⟩
      | some n =>
        let fName := archName f d n
        let f1 := { f with fileWriter := f.fileWriter.closeFd }
        if o.renameOk then
          let fs1 := fs.rename f1.Filename fName
          if o.chmodRotOk then
            let r := restartLogger now f1 fs1 o
            ⟨r.f, r.fs, [], r.err, some (f.Filename, fName), true⟩
          else
            ⟨f1, fs1, [], some GoErr.rotateChmod, some (f.Filename, fName), false⟩
        else
          let r := restartLogger now f1 fs o
          ⟨r.f, r.fs, [SinkMsg.renameErr f.Filename fName], r.err, none, true⟩
    else
      let r := restartLogger now f fs o
      ⟨r.f, r.fs, [], r.err, none, true⟩

/-- `f.fileWriter.Write([]byte(msg))`: fails on a nil or closed descriptor,
appends to the open file otherwise (the oracle may still fail the write). -/
def writeToFile (h : Handle) (fs : FS) (msg : String) (o : Oracle) : FS × Option GoErr :=
  match h with
  | Handle.nilFile => (fs, some GoErr.invalidFile)
  | Handle.closedFile _ => (fs, some GoErr.fileClosed)
  | Handle.openFile p => if o.writeOk then (fs.appendTo p msg, none) else (fs, some GoErr.writeFail)

/-- What the rotation block of `LogWrite` (lines 108–122) produced. -/
structure Phase1 where
  f : FileLogger
  fs : FS
  sink : List SinkMsg
  sweep : Bool
deriving Repr, DecidableEq

/-- The rotation block of `LogWrite`: when appending and the trigger holds,
run `createFreshFile`, reporting its error (if any) to the sink.  The
double-checked re-evaluation under the exclusive lock sees the same
sequential state and is therefore a single evaluation here. -/
def rotatePhase (when now : GoTime) (msgLen : Int) (f : FileLogger) (fs : FS)
    (o : Oracle) : Phase1 :=
  if f.Append && needCreateFresh f msgLen when.day then
    let r := createFreshFile when now f fs o
    match r.err with
    | some e => ⟨r.f, r.fs, r.sink ++ [SinkMsg.createFreshErr f.Filename e], r.sweep⟩
    | none => ⟨r.f, r.fs, r.sink, r.sweep⟩
  else ⟨f, fs, [], false⟩

/-- Result of one `LogWrite` call: final state, sink output, the returned
error, and whether a sweep was spawned. -/
structure WriteRes where
  f : FileLogger
  fs : FS
  sink : List SinkMsg
  ret : Option GoErr
  sweep : Bool
deriving Repr, DecidableEq

/-- `LogWrite(when, msgText, level)`: drop non-string messages and messages
above the level threshold; append `"\n"`; rotate if due; append the message;
bump the counters only on a successful write; return the write's error. -/
def LogWrite (when now : GoTime) (msgIsString : Bool) (msgText : String) (level : Int)
    (f : FileLogger) (fs : FS) (o : Oracle) : WriteRes :=
  if !msgIsString then ⟨f, fs, [], none, false⟩
  else if level > f.LogLevel then ⟨f, fs, [], none, false⟩
  else
    let msg := msgText ++ "\n"
    let p := rotatePhase when now (Int.ofNat (goLen msg)) f fs o
    let w := writeToFile p.f.fileWriter p.fs msg o
    if w.2 = none then
      ⟨{ p.f with maxLinesCurLines := p.f.maxLinesCurLines + 1,
                  maxSizeCurSize := p.f.maxSizeCurSize + Int.ofNat (goLen msg) },
        w.1, p.sink, none, p.sweep⟩
    else ⟨p.f, w.1, p.sink, w.2, p.sweep⟩

/-- `Destroy`: close the active descriptor. -/
def Destroy (f : FileLogger) : FileLogger :=
  { f with fileWriter := f.fileWriter.closeFd }

/-- List-level string comparison: the second list is an initial segment of
the first. -/
def strStarts : List Char → List Char → Bool
  | _, [] => true
  | [], _ :: _ => false
  | c :: s, d :: p => c == d && strStarts s p

/-- Go's `strings.HasPrefix` (on UTF-8 strings, byte-prefix and
character-prefix coincide for well-formed prefixes). -/
def goStartsWith (s p : String) : Bool := strStarts s.toList p.toList

/-- Go's `strings.HasSuffix`. -/
def goEndsWith (s p : String) : Bool := strStarts s.toList.reverse p.toList.reverse

/-- Go's `filepath.Base`: the last element of the path, after removing
trailing separators; `"."` for the empty path, `"/"` for all-separators. -/
def baseOf (s : String) : String :=
  if s.length = 0 then "."
  else
    let trimmed := (s.toList.reverse.dropWhile (fun c => c == '/')).reverse
    if trimmed.isEmpty then "/"
    else String.mk (trimmed.reverse.takeWhile (fun c => c != '/')).reverse

/-- One entry produced by `filepath.Walk` over the log directory: its path,
whether it is a directory, and its modification time (nanoseconds). -/
structure WalkEntry where
  path : String
  isDir : Bool
  modTime : Int
deriving Repr, DecidableEq

/-- Nanoseconds per hour, Go's `time.Hour`. -/
def nsPerHour : Int := 3600 * 1000000000

/-- The per-entry test of `deleteOldLog` (line 281–283): retention enabled,
a non-directory whose modification time plus `MaxDays` days lies before
`now`, and whose base name starts with the base of `fileNameOnly` and ends
with `suffix`. -/
def shouldDelete (f : FileLogger) (now : Int) (e : WalkEntry) : Bool :=
  decide (f.MaxDays ≠ -1) && !e.isDir &&
  decide (e.modTime + 24 * nsPerHour * f.MaxDays < now) &&
  goStartsWith (baseOf e.path) (baseOf f.fileNameOnly) &&
  goEndsWith (baseOf e.path) f.suffix

/-- `deleteOldLog`: the retention sweep walks the directory entries and
removes every entry passing `shouldDelete` (each `os.Remove` failure is
ignored).  The result is the list of entries the sweep removes. -/
def deleteOldLog (f : FileLogger) (now : Int) (entries : List WalkEntry) : List WalkEntry :=
  entries.filter (shouldDelete f now)

/-- Go's `filepath.Ext`: the suffix beginning at the final dot in the final
element of the path; empty when that element has no dot. -/
def filepathExt (p : String) : String :=
  let revTail := p.toList.reverse.takeWhile (fun c => c != '/')
  if revTail.contains '.' then
    String.mk (((revTail.takeWhile (fun c => c != '.')) ++ ['.']).reverse)
  else ""

/-- Go's `strings.TrimSuffix`. -/
def trimSuffix (s sfx : String) : String :=
  if goEndsWith s sfx then String.mk (s.toList.take (s.toList.length - sfx.toList.length))
  else s

/-- Result of `Init`. -/
structure InitRes where
  f : FileLogger
  fs : FS
  err : Option GoErr
deriving Repr, DecidableEq

/-- `Init(jsonConfig)`: an empty config string is accepted unchanged;
otherwise unmarshal the JSON into the struct (the decoded struct is supplied
as `unmarshal`, `none` meaning a decode error), require a filename, derive
`suffix`/`fileNameOnly`, convert `MaxSize` from megabytes to bytes, default
the suffix to `".log"`, look the level name up in the façade's `LevelMap`
(supplied as `levelMap`), and open the initial file via `newFile`. -/
def Init (now : GoTime) (f : FileLogger) (jsonConfig : String)
    (unmarshal : Option FileLogger) (levelMap : String → Option Int)
    (fs : FS) (o : Oracle) : InitRes :=
  if jsonConfig.length = 0 then ⟨f, fs, none⟩
  else
    match unmarshal with
    | none => ⟨f, fs, some GoErr.jsonUnmarshal⟩
    | some g =>
      if g.Filename.length = 0 then ⟨g, fs, some GoErr.missingFilename⟩
      else
        let sfx := filepathExt g.Filename
        let g1 := { g with suffix := sfx,
                           fileNameOnly := trimSuffix g.Filename sfx,
                           MaxSize := g.MaxSize * (1024 * 1024) }
        let g2 := if g1.suffix = "" then { g1 with suffix := ".log" } else g1
        let g3 := match levelMap g2.Level with
                  | some l => { g2 with LogLevel := l }
                  | none => g2
        let r := newFile now g3 fs o
        ⟨r.f, r.fs, r.err⟩

/-! Concrete states used to exercise the model on explicit inputs.  The
field values follow the registered default adapter (`init()`, lines
298–308): `Daily` on, `MaxDays` 7, `Append` on, `PermitMask` `"0777"`;
`LogLevel` 7 stands for the package's most verbose level. -/

/-- A logger opened on `app.log` with `Daily` rotation and no size/line
limits, as after an open on 2021-01-01. -/
def dailyLogger : FileLogger :=
  { fileWriter := Handle.openFile "app.log"
    Filename := "app.log", Append := true, MaxLines := 0, MaxSize := 0
    Daily := true, MaxDays := 7, Level := "debug", PermitMask := "0777"
    LogLevel := 7, maxSizeCurSize := 4, maxLinesCurLines := 1
    dailyOpenDate := 1, dailyOpenTime := ⟨2021, 1, 1⟩
    fileNameOnly := "app", suffix := ".log" }

/-- The same logger with daily rotation off, so no trigger can fire. -/
def noTriggerLogger : FileLogger := { dailyLogger with Daily := false }

/-- The filesystem holding just the active file with one old line. -/
def fsActive : FS := ⟨[("app.log", "old\n")]⟩

/-- Every OS call succeeds. -/
def allOk : Oracle := ⟨true, true, true, true, true, true, true⟩

/-- `os.Rename` fails and the subsequent re-open fails too. -/
def renameAndOpenFail : Oracle := ⟨false, true, true, true, false, true, true⟩

/-- Only `os.Rename` fails. -/
def renameFailOnly : Oracle := ⟨true, true, true, true, false, true, true⟩

/-- A directory entry for the active file itself, last modified at time 0. -/
def activeEntry : WalkEntry := ⟨"app.log", false, 0⟩

/-- An instant more than seven days after `activeEntry`'s modification. -/
def sweepNow : Int := 24 * nsPerHour * 7 + 1

/-! Helper lemmas. -/

/-- A string of zero bytes is the empty string. -/
theorem goLen_eq_zero {s : String} (h : goLen s = 0) : s = "" := by
  cases s with
  | mk data =>
    cases data with
    | nil => rfl
    | cons c cs =>
      exfalso
      have hc := Char.utf8Size_pos c
      simp [goLen, goLenAux, String.toList] at h
      omega

/-- The write step can only produce a write-step error. -/
theorem writeToFile_err_shape (h : Handle) (fs : FS) (msg : String) (o : Oracle) :
    (writeToFile h fs msg o).2 = none ∨
    (writeToFile h fs msg o).2 = some GoErr.invalidFile ∨
    (writeToFile h fs msg o).2 = some GoErr.fileClosed ∨
    (writeToFile h fs msg o).2 = some GoErr.writeFail := by
  cases h with
  | nilFile => simp [writeToFile]
  | closedFile p => simp [writeToFile]
  | openFile p =>
    by_cases hw : o.writeOk = true <;> simp [writeToFile, hw]

/-- The probe loop returns the least number in its window whose archival
name is absent. -/
theorem searchFree_spec (fs : FS) (f : FileLogger) (d : String) :
    ∀ fuel num n, searchFree fs f d num fuel = some n →
      num ≤ n ∧ n < num + fuel ∧ fs.pathExists (archName f d n) = false ∧
      ∀ m, num ≤ m → m < n → fs.pathExists (archName f d m) = true := by
  intro fuel
  induction fuel with
  | zero => intro num n h; simp [searchFree] at h
  | succ k ih =>
    intro num n h
    rw [searchFree] at h
    by_cases hex : fs.pathExists (archName f d num) = true
    · rw [if_pos hex] at h
      obtain ⟨h1, h2, h3, h4⟩ := ih (num + 1) n h
      refine ⟨by omega, by omega, h3, ?_⟩
      intro m hm1 hm2
      rcases Nat.eq_or_lt_of_le hm1 with heq | hlt
      · exact heq ▸ hex
      · exact h4 m hlt hm2
    · rw [if_neg hex] at h
      obtain rfl : num = n := by exact Option.some.inj h
      refine ⟨Nat.le_refl num, by omega, by simpa using hex, ?_⟩
      intro m hm1 hm2
      omega

set_option maxRecDepth 10000 in
/-- Three-digit formatting really is three digits for every probed number. -/
theorem pad3_length_all :
    ((List.range 1000).all (fun n => (pad3 n).length == 3)) = true := by decide

theorem pad3_length (n : Nat) (h : n < 1000) : (pad3 n).length = 3 := by
  have h2 := List.all_eq_true.mp pad3_length_all n (List.mem_range.mpr h)
  simpa using h2

/-! The claims. -/

/-- C4: the rotation trigger is a pure predicate over the counters and the
incoming message size, true exactly when `maxLines > 0 ∧ lineCount ≥
maxLines`, or `maxSizeBytes > 0 ∧ byteSize + incomingSize ≥ maxSizeBytes`,
or `daily` is set and the write's day-of-month differs from the recorded
open date. -/
theorem needCreateFresh_iff_trigger (f : FileLogger) (size : Int) (day : Nat) :
    needCreateFresh f size day = true ↔
      (f.MaxLines > 0 ∧ f.maxLinesCurLines ≥ f.MaxLines) ∨
      (f.MaxSize > 0 ∧ f.maxSizeCurSize + size ≥ f.MaxSize) ∨
      (f.Daily = true ∧ day ≠ f.dailyOpenDate) := by
  simp only [needCreateFresh, Bool.or_eq_true, Bool.and_eq_true, decide_eq_true_eq]
  tauto

/-- C10: `Init` on the empty configuration string returns success without
validating anything or opening any file: the logger keeps its current
(registered default) state and the filesystem is untouched. -/
theorem init_empty_config_no_op (now : GoTime) (f : FileLogger)
    (unmarshal : Option FileLogger) (levelMap : String → Option Int)
    (fs : FS) (o : Oracle) :
    Init now f "" unmarshal levelMap fs o = ⟨f, fs, none⟩ := rfl

/-- C2 (amended): one retention sweep removes exactly the non-directory
entries whose base name begins with the base of `fileNameOnly` and ends
with `suffix` and whose modification time lies more than `maxDays` days
before now (with `maxDays ≠ -1`); it removes nothing when `maxDays = -1`
and never removes a non-matching (unrelated) file.  The currently active
file itself matches this name pattern, so — contrary to the original claim —
it is removed too whenever its modification time is stale (see the
counterexample). -/
theorem deleteOldLog_characterization (f : FileLogger) (now : Int)
    (entries : List WalkEntry) :
    (∀ e, e ∈ deleteOldLog f now entries ↔
       (e ∈ entries ∧ f.MaxDays ≠ -1 ∧ e.isDir = false ∧
        e.modTime + 24 * nsPerHour * f.MaxDays < now ∧
        goStartsWith (baseOf e.path) (baseOf f.fileNameOnly) = true ∧
        goEndsWith (baseOf e.path) f.suffix = true)) ∧
    (f.MaxDays = -1 → deleteOldLog f now entries = []) := by
  constructor
  · intro e
    simp only [deleteOldLog, List.mem_filter, shouldDelete, Bool.and_eq_true,
      decide_eq_true_eq, Bool.not_eq_true']
    tauto
  · intro h
    simp [deleteOldLog, shouldDelete, h]

/-- C2 witness: a stale archival file entry is removed, and with
`maxDays = -1` the sweep removes nothing. -/
theorem deleteOldLog_characterization_witness :
    (⟨"app.2021-01-01.001.log", false, 0⟩ : WalkEntry)
      ∈ deleteOldLog dailyLogger sweepNow [⟨"app.2021-01-01.001.log", false, 0⟩] ∧
    deleteOldLog { dailyLogger with MaxDays := -1 } sweepNow [activeEntry] = [] := by
  constructor
  · exact ((deleteOldLog_characterization dailyLogger sweepNow
      [⟨"app.2021-01-01.001.log", false, 0⟩]).1
      ⟨"app.2021-01-01.001.log", false, 0⟩).mpr (by decide)
  · exact (deleteOldLog_characterization { dailyLogger with MaxDays := -1 } sweepNow
      [activeEntry]).2 rfl

/-- C2 counterexample: with the registered `maxDays = 7` retention, the
sweep removes the entry whose path is the currently active file when that
file's modification time is more than seven days old — the claim that the
active file is never deleted fails on this input. -/
theorem deleteOldLog_removes_active_file :
    activeEntry ∈ deleteOldLog dailyLogger sweepNow [activeEntry] ∧
    activeEntry.path = dailyLogger.Filename ∧
    dailyLogger.MaxDays = 7 ∧ activeEntry.isDir = false := by
  refine ⟨?_, rfl, rfl, rfl⟩
  decide

/-- C5: at initialization the logger opens the configured file and, when it
already has content (and the logger is in append mode), seeds
`maxLinesCurLines` with the file's true line count — `K` for a file holding
`K` newline-terminated lines — and with 0 when the file is empty. -/
theorem newFile_seeds_lineCount (now : GoTime) (f : FileLogger) (fs : FS) (o : Oracle)
    (pm : Int) (content : String)
    (happ : f.Append = true)
    (hperm : parseOctal f.PermitMask = some pm)
    (ho : o.openOk = true) (hcm : o.chmodOpenOk = true)
    (hst : o.statOk = true) (hrd : o.readOk = true)
    (hex : fs.lookup f.Filename = some content) :
    (newFile now f fs o).err = none ∧
    (newFile now f fs o).f.maxLinesCurLines = Int.ofNat (lines content) ∧
    (content = "" → (newFile now f fs o).f.maxLinesCurLines = 0) := by
  have hpe : fs.pathExists f.Filename = true := by simp [FS.pathExists, hex]
  by_cases hz : goLen content = 0
  · have hce : content = "" := goLen_eq_zero hz
    subst hce
    simp [newFile, createLogFile, hperm, ho, hcm, hst, hpe, hex, lines, goLen, goLenAux,
      String.toList]
  · have hpos : 0 < goLen content := Nat.pos_of_ne_zero hz
    have hne : ¬ content = "" := by
      intro hc; subst hc; exact hz rfl
    simp [newFile, createLogFile, hperm, ho, hcm, hst, hrd, hpe, hex, hpos, hne]

/-- C5 witness: re-initializing against a file holding the three lines
`a`, `b`, `c` seeds the line counter with 3. -/
theorem newFile_seeds_lineCount_witness :
    (newFile ⟨2021, 1, 5⟩ dailyLogger ⟨[("app.log", "a\nb\nc\n")]⟩ allOk).f.maxLinesCurLines
      = Int.ofNat 3 := by
  have h := newFile_seeds_lineCount ⟨2021, 1, 5⟩ dailyLogger ⟨[("app.log", "a\nb\nc\n")]⟩
    allOk 511 "a\nb\nc\n" rfl (by decide) rfl rfl rfl rfl (by decide)
  exact h.2.1.trans (by decide)

/-- C3: when the active file exists at rotation time, the Rotator probes
3-digit archival sequence numbers 1..999 in order and renames the current
file to the name of the lowest number not already present on disk; when all
999 names exist, it fails with the `cannot find free log number` error and
performs no rename, leaving the filesystem unchanged. -/
theorem rotation_picks_lowest_free_number (logTime now : GoTime) (f : FileLogger)
    (fs : FS) (o : Oracle) (pm : Int)
    (hperm : parseOctal f.PermitMask = some pm)
    (hex : fs.pathExists f.Filename = true) :
    (∀ n, findFreeNum fs f (rotationDateStr f logTime) = some n →
       (1 ≤ n ∧ n ≤ 999 ∧ (pad3 n).length = 3 ∧
        fs.pathExists (archName f (rotationDateStr f logTime) n) = false ∧
        (∀ m, 1 ≤ m → m < n →
          fs.pathExists (archName f (rotationDateStr f logTime) m) = true)) ∧
       (o.renameOk = true →
         (createFreshFile logTime now f fs o).renamedTo
           = some (f.Filename, archName f (rotationDateStr f logTime) n))) ∧
    (findFreeNum fs f (rotationDateStr f logTime) = none →
       (createFreshFile logTime now f fs o).err
         = some (GoErr.noFreeLogNumber f.Filename) ∧
       (createFreshFile logTime now f fs o).renamedTo = none ∧
       (createFreshFile logTime now f fs o).fs = fs) := by
  constructor
  · intro n hn
    obtain ⟨h1, h2, h3, h4⟩ :=
      searchFree_spec fs f (rotationDateStr f logTime) 999 1 n hn
    refine ⟨⟨h1, by omega, pad3_length n (by omega), h3, fun m hm1 hm2 => h4 m hm1 hm2⟩, ?_⟩
    intro hre
    by_cases hc : o.chmodRotOk = true <;>
      simp [createFreshFile, hperm, hex, hn, hre, hc]
  · intro hn
    simp [createFreshFile, hperm, hex, hn]

/-- C3 witness: with `.001` already taken for the day, rotation renames the
active file to the `.002` archival name, which was free. -/
theorem rotation_picks_lowest_free_number_witness :
    (createFreshFile ⟨2021, 1, 1⟩ ⟨2021, 1, 1⟩ dailyLogger
        ⟨[("app.log", "old\n"), ("app.2021-01-01.001.log", "x\n")]⟩ allOk).renamedTo
      = some ("app.log", "app.2021-01-01.002.log") := by
  have h := (rotation_picks_lowest_free_number ⟨2021, 1, 1⟩ ⟨2021, 1, 1⟩ dailyLogger
    ⟨[("app.log", "old\n"), ("app.2021-01-01.001.log", "x\n")]⟩ allOk 511
    (by decide) (by decide)).1 2 (by decide)
  exact (h.2 rfl).trans (by decide)

/-- C7: the archival date stamp follows the trigger: when the write's
day-of-month differs from the recorded open date, the stamp is the previous
open time's date; when rotation fires on the same day (size or line count),
the stamp is the current write instant's date. -/
theorem archival_date_stamp_rule (logTime now : GoTime) (f : FileLogger) (fs : FS)
    (o : Oracle) (pm : Int) (n : Nat)
    (hperm : parseOctal f.PermitMask = some pm)
    (hex : fs.pathExists f.Filename = true)
    (hn : findFreeNum fs f (rotationDateStr f logTime) = some n)
    (hre : o.renameOk = true) :
    (f.dailyOpenDate ≠ logTime.day →
      (createFreshFile logTime now f fs o).renamedTo
        = some (f.Filename, archName f (fmtDate f.dailyOpenTime) n)) ∧
    (f.dailyOpenDate = logTime.day →
      (createFreshFile logTime now f fs o).renamedTo
        = some (f.Filename, archName f (fmtDate logTime) n)) := by
  constructor
  · intro hd
    have hd2 : rotationDateStr f logTime = fmtDate f.dailyOpenTime := by
      simp [rotationDateStr, hd]
    rw [← hd2]
    by_cases hc : o.chmodRotOk = true <;>
      simp [createFreshFile, hperm, hex, hn, hre, hc]
  · intro hd
    have hd2 : rotationDateStr f logTime = fmtDate logTime := by
      simp [rotationDateStr, hd]
    rw [← hd2]
    by_cases hc : o.chmodRotOk = true <;>
      simp [createFreshFile, hperm, hex, hn, hre, hc]

/-- C7 witness: rotating at a write whose day (2) differs from the open day
(1) stamps the archival name with the previous open date 2021-01-01, not the
write's date. -/
theorem archival_date_stamp_rule_witness :
    (createFreshFile ⟨2021, 1, 2⟩ ⟨2021, 1, 2⟩ dailyLogger fsActive allOk).renamedTo
      = some ("app.log", "app.2021-01-01.001.log") := by
  have h := (archival_date_stamp_rule ⟨2021, 1, 2⟩ ⟨2021, 1, 2⟩ dailyLogger fsActive
    allOk 511 1 (by decide) (by decide) (by decide) rfl).1 (by decide)
  exact h.trans (by decide)

/-- C1 (amended): when the rename fails during rotation the failure is
reported to the error sink and is not returned, and the Rotator still opens
a fresh usable file at the original filename and spawns the sweep — provided
the re-open (and its stat/line scan) succeeds.  When the re-open also fails,
no usable handle exists afterward and the wrapped open error is returned to
the Write Path (which reports it to the sink); see the counterexample. -/
theorem rename_failure_fail_open (logTime now : GoTime) (f : FileLogger) (fs : FS)
    (o : Oracle) (pm : Int) (n : Nat)
    (hperm : parseOctal f.PermitMask = some pm)
    (hex : fs.pathExists f.Filename = true)
    (hn : findFreeNum fs f (rotationDateStr f logTime) = some n)
    (hre : o.renameOk = false)
    (ho : o.openOk = true) (hcm : o.chmodOpenOk = true)
    (hst : o.statOk = true) (hrd : o.readOk = true) :
    (createFreshFile logTime now f fs o).sink
      = [SinkMsg.renameErr f.Filename (archName f (rotationDateStr f logTime) n)] ∧
    (createFreshFile logTime now f fs o).err = none ∧
    (createFreshFile logTime now f fs o).f.fileWriter = Handle.openFile f.Filename ∧
    (createFreshFile logTime now f fs o).sweep = true := by
  by_cases hz : 0 < goLen ((fs.lookup f.Filename).getD "") <;>
    simp [createFreshFile, hperm, hex, hn, hre, restartLogger, newFile, createLogFile,
      ho, hcm, hst, hrd, hz]

/-- C1 witness: only the rename fails; the error is sinked, nothing is
returned, and an open handle on the original filename exists afterward. -/
theorem rename_failure_fail_open_witness :
    (createFreshFile ⟨2021, 1, 1⟩ ⟨2021, 1, 1⟩ dailyLogger fsActive renameFailOnly).err
      = none ∧
    (createFreshFile ⟨2021, 1, 1⟩ ⟨2021, 1, 1⟩ dailyLogger fsActive
        renameFailOnly).f.fileWriter = Handle.openFile "app.log" := by
  have h := rename_failure_fail_open ⟨2021, 1, 1⟩ ⟨2021, 1, 1⟩ dailyLogger fsActive
    renameFailOnly 511 1 (by decide) (by decide) (by decide) rfl rfl rfl rfl rfl
  exact ⟨h.2.1, h.2.2.1⟩

/-- C1 counterexample: the rename fails and the re-open fails too — the
rename failure is sinked, but afterward the logger holds only a closed
descriptor (no usable file handle) and the wrapped open failure is returned,
refuting the unconditional fail-open guarantee as stated. -/
theorem rename_failure_no_handle_when_reopen_fails :
    (createFreshFile ⟨2021, 1, 1⟩ ⟨2021, 1, 1⟩ dailyLogger fsActive renameAndOpenFail).sink
      = [SinkMsg.renameErr "app.log" "app.2021-01-01.001.log"] ∧
    (createFreshFile ⟨2021, 1, 1⟩ ⟨2021, 1, 1⟩ dailyLogger fsActive
        renameAndOpenFail).f.fileWriter = Handle.closedFile "app.log" ∧
    (createFreshFile ⟨2021, 1, 1⟩ ⟨2021, 1, 1⟩ dailyLogger fsActive renameAndOpenFail).err
      = some (GoErr.rotateStart GoErr.openFail) := by decide

/-- Unfolding of `LogWrite` for a string message under the level threshold. -/
theorem logWrite_unfold (when now : GoTime) (msgText : String) (level : Int)
    (f : FileLogger) (fs : FS) (o : Oracle) (hl : ¬ level > f.LogLevel) :
    LogWrite when now true msgText level f fs o =
      (if (writeToFile
            (rotatePhase when now (Int.ofNat (goLen (msgText ++ "\n"))) f fs o).f.fileWriter
            (rotatePhase when now (Int.ofNat (goLen (msgText ++ "\n"))) f fs o).fs
            (msgText ++ "\n") o).2 = none
       then
        ⟨{ (rotatePhase when now (Int.ofNat (goLen (msgText ++ "\n"))) f fs o).f with
            maxLinesCurLines :=
              (rotatePhase when now (Int.ofNat (goLen (msgText ++ "\n"))) f fs o).f.maxLinesCurLines + 1,
            maxSizeCurSize :=
              (rotatePhase when now (Int.ofNat (goLen (msgText ++ "\n"))) f fs o).f.maxSizeCurSize
                + Int.ofNat (goLen (msgText ++ "\n")) },
          (writeToFile
            (rotatePhase when now (Int.ofNat (goLen (msgText ++ "\n"))) f fs o).f.fileWriter
            (rotatePhase when now (Int.ofNat (goLen (msgText ++ "\n"))) f fs o).fs
            (msgText ++ "\n") o).1,
          (rotatePhase when now (Int.ofNat (goLen (msgText ++ "\n"))) f fs o).sink, none,
          (rotatePhase when now (Int.ofNat (goLen (msgText ++ "\n"))) f fs o).sweep⟩
       else
        ⟨(rotatePhase when now (Int.ofNat (goLen (msgText ++ "\n"))) f fs o).f,
          (writeToFile
            (rotatePhase when now (Int.ofNat (goLen (msgText ++ "\n"))) f fs o).f.fileWriter
            (rotatePhase when now (Int.ofNat (goLen (msgText ++ "\n"))) f fs o).fs
            (msgText ++ "\n") o).1,
          (rotatePhase when now (Int.ofNat (goLen (msgText ++ "\n"))) f fs o).sink,
          (writeToFile
            (rotatePhase when now (Int.ofNat (goLen (msgText ++ "\n"))) f fs o).f.fileWriter
            (rotatePhase when now (Int.ofNat (goLen (msgText ++ "\n"))) f fs o).fs
            (msgText ++ "\n") o).2,
          (rotatePhase when now (Int.ofNat (goLen (msgText ++ "\n"))) f fs o).sweep⟩) := by
  simp [LogWrite, hl]

/-- A rotation error is always appended to the sink by the rotation block. -/
theorem rotatePhase_sink_on_error (when now : GoTime) (msgLen : Int) (f : FileLogger)
    (fs : FS) (o : Oracle) (e : GoErr)
    (htr : (f.Append && needCreateFresh f msgLen when.day) = true)
    (herr : (createFreshFile when now f fs o).err = some e) :
    SinkMsg.createFreshErr f.Filename e ∈ (rotatePhase when now msgLen f fs o).sink := by
  unfold rotatePhase
  rw [if_pos htr]
  simp only []
  rw [herr]
  simp

/-- When the trigger does not fire (or appending is off), the rotation
block leaves everything unchanged. -/
theorem rotatePhase_noop (when now : GoTime) (msgLen : Int) (f : FileLogger)
    (fs : FS) (o : Oracle)
    (hnr : (f.Append && needCreateFresh f msgLen when.day) = false) :
    rotatePhase when now msgLen f fs o = ⟨f, fs, [], false⟩ := by
  unfold rotatePhase
  rw [if_neg (by simp [hnr])]

/-- `LogWrite` passes the rotation block's sink output through unchanged. -/
theorem logWrite_sink_eq (when now : GoTime) (msgText : String) (level : Int)
    (f : FileLogger) (fs : FS) (o : Oracle) (hl : ¬ level > f.LogLevel) :
    (LogWrite when now true msgText level f fs o).sink
      = (rotatePhase when now (Int.ofNat (goLen (msgText ++ "\n"))) f fs o).sink := by
  rw [logWrite_unfold when now msgText level f fs o hl]
  split <;> rfl

/-- C6: `LogWrite` only ever returns the final append's error — `nil`, the
nil-descriptor error, the closed-descriptor error, or the write failure —
and every error arising inside rotation is written to the error sink
instead of being returned to the caller. -/
theorem logWrite_returns_only_append_error (when now : GoTime) (b : Bool)
    (msgText : String) (level : Int) (f : FileLogger) (fs : FS) (o : Oracle) :
    ((LogWrite when now b msgText level f fs o).ret = none ∨
     (LogWrite when now b msgText level f fs o).ret = some GoErr.invalidFile ∨
     (LogWrite when now b msgText level f fs o).ret = some GoErr.fileClosed ∨
     (LogWrite when now b msgText level f fs o).ret = some GoErr.writeFail) ∧
    (∀ e, b = true → ¬ level > f.LogLevel →
       (f.Append && needCreateFresh f (Int.ofNat (goLen (msgText ++ "\n"))) when.day) = true →
       (createFreshFile when now f fs o).err = some e →
       SinkMsg.createFreshErr f.Filename e
         ∈ (LogWrite when now b msgText level f fs o).sink) := by
  cases b with
  | false => simp [LogWrite]
  | true =>
    by_cases hl : level > f.LogLevel
    · constructor
      · simp [LogWrite, hl]
      · intro e _ hl2
        exact absurd hl hl2
    · constructor
      · have hs := writeToFile_err_shape
          (rotatePhase when now (Int.ofNat (goLen (msgText ++ "\n"))) f fs o).f.fileWriter
          (rotatePhase when now (Int.ofNat (goLen (msgText ++ "\n"))) f fs o).fs
          (msgText ++ "\n") o
        rw [logWrite_unfold when now msgText level f fs o hl]
        split
        · left; rfl
        · simpa using hs
      · intro e _ _ htr herr
        rw [logWrite_sink_eq when now msgText level f fs o hl]
        exact rotatePhase_sink_on_error when now (Int.ofNat (goLen (msgText ++ "\n")))
          f fs o e htr herr

/-- C6 witness: a rotation whose rename and re-open both fail reports the
wrapped error to the sink while the write path returns only the append
error. -/
theorem logWrite_returns_only_append_error_witness :
    SinkMsg.createFreshErr "app.log" (GoErr.rotateStart GoErr.openFail)
      ∈ (LogWrite ⟨2021, 1, 2⟩ ⟨2021, 1, 2⟩ true "hello" 1 dailyLogger fsActive
          renameAndOpenFail).sink := by
  have h := (logWrite_returns_only_append_error ⟨2021, 1, 2⟩ ⟨2021, 1, 2⟩ true "hello" 1
    dailyLogger fsActive renameAndOpenFail).2 (GoErr.rotateStart GoErr.openFail)
    rfl (by decide) (by decide) (by decide)
  exact h

/-- C9: for a write that passes the filters, the counters are bumped — one
line and the message length including the appended terminator — exactly when
the underlying append succeeds; on an append error they are left unchanged
(relative to the state after the rotation block). -/
theorem logWrite_counters_only_on_success (when now : GoTime) (msgText : String)
    (level : Int) (f : FileLogger) (fs : FS) (o : Oracle) (p : Phase1)
    (w : FS × Option GoErr)
    (hl : ¬ level > f.LogLevel)
    (hp : rotatePhase when now (Int.ofNat (goLen (msgText ++ "\n"))) f fs o = p)
    (hw : writeToFile p.f.fileWriter p.fs (msgText ++ "\n") o = w) :
    ((LogWrite when now true msgText level f fs o).ret = w.2) ∧
    (w.2 ≠ none →
      (LogWrite when now true msgText level f fs o).f.maxLinesCurLines
        = p.f.maxLinesCurLines ∧
      (LogWrite when now true msgText level f fs o).f.maxSizeCurSize
        = p.f.maxSizeCurSize) ∧
    (w.2 = none →
      (LogWrite when now true msgText level f fs o).f.maxLinesCurLines
        = p.f.maxLinesCurLines + 1 ∧
      (LogWrite when now true msgText level f fs o).f.maxSizeCurSize
        = p.f.maxSizeCurSize + Int.ofNat (goLen (msgText ++ "\n"))) := by
  rw [logWrite_unfold when now msgText level f fs o hl, hp, hw]
  by_cases hwe : w.2 = none
  · simp [hwe]
  · simp [hwe]

/-- C9 witness: with the write failing on an open handle and no rotation
due, the counters stay at their pre-write values and the error is
returned. -/
theorem logWrite_counters_only_on_success_witness :
    (LogWrite ⟨2021, 1, 1⟩ ⟨2021, 1, 1⟩ true "hello" 1 noTriggerLogger fsActive
        ⟨true, true, true, true, true, true, false⟩).ret = some GoErr.writeFail ∧
    (LogWrite ⟨2021, 1, 1⟩ ⟨2021, 1, 1⟩ true "hello" 1 noTriggerLogger fsActive
        ⟨true, true, true, true, true, true, false⟩).f.maxLinesCurLines = 1 := by
  have h := logWrite_counters_only_on_success ⟨2021, 1, 1⟩ ⟨2021, 1, 1⟩ "hello" 1
    noTriggerLogger fsActive ⟨true, true, true, true, true, true, false⟩
    ⟨noTriggerLogger, fsActive, [], false⟩ (fsActive, some GoErr.writeFail)
    (by decide) (by decide) (by decide)
  refine ⟨h.1, ?_⟩
  have h2 := (h.2.1 (by simp)).1
  simpa using h2

/-- C8 (amended): after `Destroy` closes the handle, a subsequent write that
passes the filters and does not trigger rotation fails with the
closed-descriptor error; the counterexample shows that a post-`Destroy`
write that does trigger rotation reopens a fresh file and silently
succeeds. -/
theorem destroyed_write_fails_without_rotation (when now : GoTime) (msgText : String)
    (level : Int) (f : FileLogger) (fs : FS) (o : Oracle) (q : String)
    (hq : f.fileWriter = Handle.openFile q)
    (hl : ¬ level > f.LogLevel)
    (hnr : ((Destroy f).Append &&
        needCreateFresh (Destroy f) (Int.ofNat (goLen (msgText ++ "\n"))) when.day)
      = false) :
    (LogWrite when now true msgText level (Destroy f) fs o).ret
      = some GoErr.fileClosed := by
  have hD : Destroy f = { f with fileWriter := Handle.closedFile q } := by
    simp [Destroy, hq, Handle.closeFd]
  rw [hD] at hnr ⊢
  rw [logWrite_unfold when now msgText level
      { f with fileWriter := Handle.closedFile q } fs o hl,
    rotatePhase_noop when now (Int.ofNat (goLen (msgText ++ "\n")))
      { f with fileWriter := Handle.closedFile q } fs o hnr]
  simp [writeToFile]

/-- C8 witness: with no rotation trigger configured, a write after `Destroy`
returns the closed-descriptor error. -/
theorem destroyed_write_fails_without_rotation_witness :
    (LogWrite ⟨2021, 1, 2⟩ ⟨2021, 1, 2⟩ true "hello" 1 (Destroy noTriggerLogger)
        fsActive allOk).ret = some GoErr.fileClosed := by
  exact destroyed_write_fails_without_rotation ⟨2021, 1, 2⟩ ⟨2021, 1, 2⟩ "hello" 1
    noTriggerLogger fsActive allOk "app.log" rfl (by decide) (by decide)

/-- C8 counterexample: a write after `Destroy` whose day change triggers
rotation reopens a fresh file and returns no error — the write silently
succeeds and lands in the fresh file, refuting the claim that every
post-shutdown write fails. -/
theorem destroyed_write_silently_succeeds :
    (LogWrite ⟨2021, 1, 2⟩ ⟨2021, 1, 2⟩ true "hello" 1 (Destroy dailyLogger) fsActive
        allOk).ret = none ∧
    (LogWrite ⟨2021, 1, 2⟩ ⟨2021, 1, 2⟩ true "hello" 1 (Destroy dailyLogger) fsActive
        allOk).fs.lookup "app.log" = some "hello\n" := by decide

end SealerLogger
